import Mathlib

/-!
Verification development for the auto_note_server repository: a small Go HTTP
backend with two handlers (transcribe, summarize), an input sanitizer, a
transcription client and a summarization client.  Go strings are modelled as
`List Char` (the relevant operations act on ASCII code points, where Go's
byte-level and rune-level views agree on valid UTF-8), fallible Go calls are
modelled as `Except`, and the external providers are modelled as explicit
function parameters.  All definitions are transcribed from the Go source.
-/

namespace AutoNote

/-- The form-feed character U+000C, written "\f" in the Go source. -/
def formFeed : Char := Char.ofNat 12

/-- Models `strings.ReplaceAll(s, string c, string r)` for a single-character
pattern `c`: every occurrence of `c` is replaced by `r`, left to right, and
replaced text is not rescanned (for a one-character pattern this is exactly a
per-character substitution). -/
def replaceChar (c : Char) (r : List Char) : List Char → List Char
  | [] => []
  | x :: xs => (if x = c then r else [x]) ++ replaceChar c r xs

/-- The character class of the Go regex in sanitizeInput,
`[\x00-\x08\x0B\x0C\x0E-\x1F]`: control characters U+0000-U+001F except
newline (U+000A), tab (U+0009) and carriage return (U+000D). -/
def isStrippedCtl (c : Char) : Bool :=
  decide (c.toNat ≤ 8 ∨ c.toNat = 11 ∨ c.toNat = 12 ∨ (14 ≤ c.toNat ∧ c.toNat ≤ 31))

/-- Models `re.ReplaceAllString(input, "")` for the control-character regex:
every matching character is deleted. -/
def stripCtl (s : List Char) : List Char := s.filter (fun c => !isStrippedCtl c)

/-- Transcribed from `sanitizeInput` (the summarize-capable main.go variant):
replace backslash, newline, tab, carriage return and form feed by their
two-character escape sequences, in that order, then strip the remaining
control characters matched by the regex. -/
def sanitizeInput (s : List Char) : List Char :=
  stripCtl (replaceChar formFeed ['\\', 'f']
    (replaceChar '\r' ['\\', 'r']
      (replaceChar '\t' ['\\', 't']
        (replaceChar '\n' ['\\', 'n']
          (replaceChar '\\' ['\\', '\\'] s)))))

/-- The per-character action of `sanitizeInput`, used to restate the five
sequential passes as a single pass (proved equivalent in
`sanitizeInput_eq_flat`). -/
def sanitizeOne (c : Char) : List Char :=
  if c = '\\' then ['\\', '\\']
  else if c = '\n' then ['\\', 'n']
  else if c = '\t' then ['\\', 't']
  else if c = '\r' then ['\\', 'r']
  else if c = formFeed then ['\\', 'f']
  else if isStrippedCtl c then []
  else [c]

/-- Single-pass form of the sanitizer. -/
def sanitizeFlat : List Char → List Char
  | [] => []
  | c :: s => sanitizeOne c ++ sanitizeFlat s

theorem replaceChar_append (c : Char) (r a b : List Char) :
    replaceChar c r (a ++ b) = replaceChar c r a ++ replaceChar c r b := by
  induction a with
  | nil => rfl
  | cons x xs ih => simp [replaceChar, ih]

theorem sanitizeInput_append (a b : List Char) :
    sanitizeInput (a ++ b) = sanitizeInput a ++ sanitizeInput b := by
  simp [sanitizeInput, stripCtl, replaceChar_append, List.filter_append]

theorem sanitizeInput_single (c : Char) : sanitizeInput [c] = sanitizeOne c := by
  by_cases h1 : c = '\\'
  · subst h1; rfl
  · by_cases h2 : c = '\n'
    · subst h2; rfl
    · by_cases h3 : c = '\t'
      · subst h3; rfl
      · by_cases h4 : c = '\r'
        · subst h4; rfl
        · by_cases h5 : c = formFeed
          · subst h5; rfl
          · by_cases h6 : isStrippedCtl c
            · simp [sanitizeInput, sanitizeOne, replaceChar, stripCtl, h1, h2, h3, h4, h5, h6]
            · simp [sanitizeInput, sanitizeOne, replaceChar, stripCtl, h1, h2, h3, h4, h5, h6]

theorem sanitizeInput_eq_flat (s : List Char) : sanitizeInput s = sanitizeFlat s := by
  induction s with
  | nil => rfl
  | cons c s ih =>
    have : sanitizeInput (c :: s) = sanitizeInput [c] ++ sanitizeInput s :=
      sanitizeInput_append [c] s
    rw [this, sanitizeInput_single, ih, sanitizeFlat]

/-- Hexadecimal digit value, used by the JSON string grammar for the
four-digit form of an escape. -/
def hexVal (c : Char) : Option Nat :=
  if 48 ≤ c.toNat ∧ c.toNat ≤ 57 then some (c.toNat - 48)
  else if 97 ≤ c.toNat ∧ c.toNat ≤ 102 then some (c.toNat - 87)
  else if 65 ≤ c.toNat ∧ c.toNat ≤ 70 then some (c.toNat - 55)
  else none

/-- The single-character escapes admitted by the JSON string grammar
(RFC 8259, section 7). -/
def escCode (e : Char) : Bool :=
  (e == '\"') || (e == '\\') || (e == '/') || (e == 'b') || (e == 'f') ||
    (e == 'n') || (e == 'r') || (e == 't')

/-- Validity of a character sequence as the content of a JSON string literal
(the part between the two double quotes), per RFC 8259: no unescaped double
quote, no unescaped backslash except as part of a legal escape, and no raw
control character below U+0020. -/
def validJSONStringContent : List Char → Bool
  | [] => true
  | c :: rest =>
    if c = '\\' then
      match rest with
      | [] => false
      | e :: r =>
        if escCode e then validJSONStringContent r
        else if e = 'u' then
          match r with
          | h1 :: h2 :: h3 :: h4 :: r2 =>
            (hexVal h1).isSome && (hexVal h2).isSome && (hexVal h3).isSome &&
              (hexVal h4).isSome && validJSONStringContent r2
          | _ => false
        else false
    else if c = '\"' then false
    else if c.toNat < 32 then false
    else validJSONStringContent rest

/-- Decoding of a valid JSON string literal content back to the character
sequence it denotes (surrogate pairing of `\u` escapes is not modelled; the
sanitizer never emits `\u` escapes). -/
def jsonUnescape : List Char → Option (List Char)
  | [] => some []
  | c :: rest =>
    if c = '\\' then
      match rest with
      | [] => none
      | e :: r =>
        if e = '\"' then (jsonUnescape r).map (fun l => '\"' :: l)
        else if e = '\\' then (jsonUnescape r).map (fun l => '\\' :: l)
        else if e = '/' then (jsonUnescape r).map (fun l => '/' :: l)
        else if e = 'b' then (jsonUnescape r).map (fun l => Char.ofNat 8 :: l)
        else if e = 'f' then (jsonUnescape r).map (fun l => Char.ofNat 12 :: l)
        else if e = 'n' then (jsonUnescape r).map (fun l => '\n' :: l)
        else if e = 'r' then (jsonUnescape r).map (fun l => '\r' :: l)
        else if e = 't' then (jsonUnescape r).map (fun l => '\t' :: l)
        else if e = 'u' then
          match r with
          | h1 :: h2 :: h3 :: h4 :: r2 =>
            match hexVal h1, hexVal h2, hexVal h3, hexVal h4 with
            | some v1, some v2, some v3, some v4 =>
              (jsonUnescape r2).map
                (fun l => Char.ofNat (4096 * v1 + 256 * v2 + 16 * v3 + v4) :: l)
            | _, _, _, _ => none
          | _ => none
        else none
    else (jsonUnescape rest).map (fun l => c :: l)

theorem char_eq_of_toNat_eq {c : Char} {n : Nat} (h : c.toNat = n) :
    c = Char.ofNat n := by
  rw [← h]; exact (Char.ofNat_toNat c).symm

theorem plain_ge32 {c : Char} (h2 : c ≠ '\n') (h3 : c ≠ '\t')
    (h4 : c ≠ '\r') (h6 : isStrippedCtl c = false) : 32 ≤ c.toNat := by
  by_contra hcon
  push_neg at hcon
  have hns : ¬(c.toNat ≤ 8 ∨ c.toNat = 11 ∨ c.toNat = 12 ∨
      (14 ≤ c.toNat ∧ c.toNat ≤ 31)) := by
    simpa [isStrippedCtl] using h6
  have h9 : c.toNat = 9 ∨ c.toNat = 10 ∨ c.toNat = 13 := by omega
  rcases h9 with h9 | h9 | h9
  · exact h3 (char_eq_of_toNat_eq h9)
  · exact h2 (char_eq_of_toNat_eq h9)
  · exact h4 (char_eq_of_toNat_eq h9)

set_option maxHeartbeats 1000000 in
theorem valid_plain {c : Char} (h1 : c ≠ '\\') (h2 : c ≠ '\"')
    (h3 : 32 ≤ c.toNat) (r : List Char) :
    validJSONStringContent (c :: r) = validJSONStringContent r := by
  rw [validJSONStringContent.eq_def]
  dsimp only
  rw [if_neg h1, if_neg h2, if_neg (by omega : ¬c.toNat < 32)]

set_option maxHeartbeats 2000000 in
theorem valid_escPair (e : Char) (he : escCode e = true) (r : List Char) :
    validJSONStringContent ('\\' :: e :: r) = validJSONStringContent r := by
  rw [validJSONStringContent.eq_def]
  dsimp only
  simp [he]

set_option maxHeartbeats 2000000 in
theorem valid_sanitizeOne_append {c : Char} (hc : c ≠ '\"') (r : List Char) :
    validJSONStringContent (sanitizeOne c ++ r) = validJSONStringContent r := by
  by_cases h1 : c = '\\'
  · subst h1; exact valid_escPair '\\' (by decide) r
  · by_cases h2 : c = '\n'
    · subst h2; exact valid_escPair 'n' (by decide) r
    · by_cases h3 : c = '\t'
      · subst h3; exact valid_escPair 't' (by decide) r
      · by_cases h4 : c = '\r'
        · subst h4; exact valid_escPair 'r' (by decide) r
        · by_cases h5 : c = formFeed
          · subst h5; exact valid_escPair 'f' (by decide) r
          · by_cases h6 : isStrippedCtl c
            · rw [show sanitizeOne c = [] from by
                simp [sanitizeOne, h1, h2, h3, h4, h5, h6]]
              rfl
            · rw [show sanitizeOne c = [c] from by
                simp [sanitizeOne, h1, h2, h3, h4, h5, h6]]
              exact valid_plain h1 hc
                (plain_ge32 h2 h3 h4 (by simpa using h6)) r

theorem valid_flat :
    ∀ s : List Char, (∀ c ∈ s, c ≠ '\"') →
      validJSONStringContent (sanitizeFlat s) = true := by
  intro s
  induction s with
  | nil => intro _; rfl
  | cons c s ih =>
    intro h
    rw [sanitizeFlat, valid_sanitizeOne_append (h c (by simp)) (sanitizeFlat s)]
    exact ih (fun x hx => h x (by simp [hx]))

/-- A character that none of the five ReplaceAll passes of sanitizeInput
rewrites. -/
def noEsc (c : Char) : Prop :=
  c ≠ '\\' ∧ c ≠ '\n' ∧ c ≠ '\t' ∧ c ≠ '\r' ∧ c ≠ formFeed

instance instDecNoEsc (c : Char) : Decidable (noEsc c) := by
  unfold noEsc; infer_instance

theorem sanitizeOne_noEsc {c : Char} (h : noEsc c) :
    sanitizeOne c = if isStrippedCtl c then [] else [c] := by
  obtain ⟨h1, h2, h3, h4, h5⟩ := h
  simp [sanitizeOne, h1, h2, h3, h4, h5]

theorem flat_strip :
    ∀ s : List Char, (∀ c ∈ s, noEsc c) → sanitizeFlat s = stripCtl s := by
  intro s
  induction s with
  | nil => intro _; rfl
  | cons c s ih =>
    intro h
    rw [sanitizeFlat, sanitizeOne_noEsc (h c (by simp)),
      ih (fun x hx => h x (by simp [hx]))]
    by_cases hst : isStrippedCtl c <;> simp [stripCtl, List.filter_cons, hst]

theorem flat_fix :
    ∀ t : List Char, (∀ c ∈ t, noEsc c ∧ isStrippedCtl c = false) →
      sanitizeFlat t = t := by
  intro t
  induction t with
  | nil => intro _; rfl
  | cons c t ih =>
    intro h
    rw [sanitizeFlat, sanitizeOne_noEsc (h c (by simp)).1, (h c (by simp)).2,
      ih (fun x hx => h x (by simp [hx]))]
    rfl

/-- Claim C1 counterexample: the sanitizer leaves a double quote unescaped, so
the output of sanitizing the one-character input `"` is not valid JSON string
content — embedded between double quotes it terminates the enclosing JSON
string literal. -/
theorem C1_counterexample :
    validJSONStringContent (sanitizeInput ['\"']) = false := by decide

/-- Claim C1 (amended): for every input string containing no double-quote
character, embedding the output of sanitizeInput between double quotes in a
hand-assembled JSON document yields syntactically valid JSON string content.
(As stated over all inputs the claim fails: a double quote passes through the
sanitizer unescaped, see the counterexample.) -/
theorem C1_amended (s : List Char) (h : ∀ c ∈ s, c ≠ '\"') :
    validJSONStringContent (sanitizeInput s) = true := by
  rw [sanitizeInput_eq_flat]
  exact valid_flat s h

/-- Witness for C1_amended at the concrete input "a\n\\b<0x01>". -/
theorem C1_witness :
    (∀ c ∈ ['a', '\n', '\\', 'b', Char.ofNat 1], c ≠ '\"') ∧
      validJSONStringContent (sanitizeInput ['a', '\n', '\\', 'b', Char.ofNat 1]) = true :=
  ⟨by decide, C1_amended ['a', '\n', '\\', 'b', Char.ofNat 1] (by decide)⟩

/-- Claim C2 counterexample: sanitizeInput is not idempotent — on the
one-character input "\n" one application gives "\\n" (backslash, n) and a
second application re-escapes the introduced backslash, giving
"\\\\n". -/
theorem C2_counterexample :
    sanitizeInput (sanitizeInput ['\n']) ≠ sanitizeInput ['\n'] := by decide

/-- Claim C2 (amended): sanitizeInput is idempotent on every input containing
none of backslash, newline, tab, carriage return and form feed (the five
characters the ReplaceAll passes rewrite).  On other inputs a second
application re-escapes the backslashes introduced by the first, see the
counterexample. -/
theorem C2_amended (s : List Char) (h : ∀ c ∈ s, noEsc c) :
    sanitizeInput (sanitizeInput s) = sanitizeInput s := by
  have e1 : sanitizeInput s = stripCtl s := by
    rw [sanitizeInput_eq_flat]; exact flat_strip s h
  rw [e1, sanitizeInput_eq_flat]
  apply flat_fix
  intro c hc
  have hm := List.mem_filter.mp hc
  exact ⟨h c hm.1, by simpa using hm.2⟩

/-- Witness for C2_amended at the concrete input "a<0x01>b". -/
theorem C2_witness :
    (∀ c ∈ ['a', Char.ofNat 1, 'b'], noEsc c) ∧
      sanitizeInput (sanitizeInput ['a', Char.ofNat 1, 'b']) =
        sanitizeInput ['a', Char.ofNat 1, 'b'] :=
  ⟨by decide, C2_amended ['a', Char.ofNat 1, 'b'] (by decide)⟩

/-- The user record resolved from the identity provider; the handlers consume
the fields `ID` (logged only) and `Banned`. -/
structure User where
  id : String
  banned : Bool
deriving DecidableEq

/-- The authentication state of one protected request: the session claims the
middleware placed in the request context (`clerk.SessionClaimsFromContext`;
`none` when absent), and the outcome of `user.Get` for a given subject. -/
structure AuthCtx where
  claims : Option String
  userLookup : String → Except String User

/-- Outcome of the in-handler auth prelude: an early response with a status
code and body, or control passing to the rest of the handler with the
resolved user. -/
inductive AuthResult where
  | stop (status : Nat) (body : String)
  | proceed (usr : User)
deriving DecidableEq

/-- Transcribed from the auth prelude of `uploadHandler` (the authenticated
two-route variant): missing claims give 401, a failed user lookup gives 500,
a banned user gives 403, otherwise control proceeds.  The bodies are the
literal byte strings the Go code writes. -/
def uploadAuthPrelude (ctx : AuthCtx) : AuthResult :=
  match ctx.claims with
  | none => .stop 401 "\x7b\"access\": \"unauthorized\"\x7d"
  | some subject =>
    match ctx.userLookup subject with
    | .error _ => .stop 500 "\x7b\"access\": \"internal server error\"\x7d"
    | .ok usr =>
      if usr.banned then .stop 403 "\x7b\"access\": \"forbidden\"\x7d"
      else .proceed usr

/-- Transcribed from the auth prelude of `handleSummaryRequest`, which repeats
the same code as `uploadAuthPrelude` verbatim. -/
def summaryAuthPrelude (ctx : AuthCtx) : AuthResult :=
  match ctx.claims with
  | none => .stop 401 "\x7b\"access\": \"unauthorized\"\x7d"
  | some subject =>
    match ctx.userLookup subject with
    | .error _ => .stop 500 "\x7b\"access\": \"internal server error\"\x7d"
    | .ok usr =>
      if usr.banned then .stop 403 "\x7b\"access\": \"forbidden\"\x7d"
      else .proceed usr

/-- Claim C9: the authentication check is behaviorally identical on the two
protected routes — for every authentication state the transcribe handler's
auth prelude and the summarize handler's auth prelude produce the same
result (same status code and body, or both proceed with the same user). -/
theorem C9_thm (ctx : AuthCtx) : uploadAuthPrelude ctx = summaryAuthPrelude ctx := rfl

/-- Claim C4 counterexample: on a request with missing session claims the
prelude responds 401 with body `{"access": "unauthorized"}` — which contains
a space after the colon and is therefore not the byte string
`{"access":"unauthorized"}` stated in the claim. -/
theorem C4_counterexample :
    uploadAuthPrelude ⟨none, fun _ => Except.error "boom"⟩ =
        AuthResult.stop 401 "\x7b\"access\": \"unauthorized\"\x7d" ∧
      "\x7b\"access\": \"unauthorized\"\x7d" ≠ "\x7b\"access\":\"unauthorized\"\x7d" :=
  ⟨rfl, by decide⟩

/-- Claim C4 (amended): for every protected request, the auth prelude of both
handlers responds exactly as follows and stops: missing claims yield 401 with
body `{"access": "unauthorized"}`; a failed user lookup yields 500 with body
`{"access": "internal server error"}`; a banned user yields 403 with body
`{"access": "forbidden"}`; otherwise control passes on with the resolved
user.  (The bodies contain a space after the colon; the claim stated them
without it.) -/
theorem C4_amended (ctx : AuthCtx) :
    (ctx.claims = none →
      uploadAuthPrelude ctx = .stop 401 "\x7b\"access\": \"unauthorized\"\x7d" ∧
        summaryAuthPrelude ctx = .stop 401 "\x7b\"access\": \"unauthorized\"\x7d") ∧
    (∀ s e, ctx.claims = some s → ctx.userLookup s = .error e →
      uploadAuthPrelude ctx = .stop 500 "\x7b\"access\": \"internal server error\"\x7d" ∧
        summaryAuthPrelude ctx = .stop 500 "\x7b\"access\": \"internal server error\"\x7d") ∧
    (∀ s u, ctx.claims = some s → ctx.userLookup s = .ok u → u.banned = true →
      uploadAuthPrelude ctx = .stop 403 "\x7b\"access\": \"forbidden\"\x7d" ∧
        summaryAuthPrelude ctx = .stop 403 "\x7b\"access\": \"forbidden\"\x7d") ∧
    (∀ s u, ctx.claims = some s → ctx.userLookup s = .ok u → u.banned = false →
      uploadAuthPrelude ctx = .proceed u ∧ summaryAuthPrelude ctx = .proceed u) := by
  refine ⟨?_, ?_, ?_, ?_⟩
  · intro h
    constructor <;> simp [uploadAuthPrelude, summaryAuthPrelude, h]
  · intro s e hs he
    constructor <;> simp [uploadAuthPrelude, summaryAuthPrelude, hs, he]
  · intro s u hs hu hb
    constructor <;> simp [uploadAuthPrelude, summaryAuthPrelude, hs, hu, hb]
  · intro s u hs hu hb
    constructor <;> simp [uploadAuthPrelude, summaryAuthPrelude, hs, hu, hb]

/-- Witness for C4_amended: each of the four behaviors at a concrete
authentication state. -/
theorem C4_witness :
    uploadAuthPrelude ⟨none, fun _ => Except.error ""⟩ =
        .stop 401 "\x7b\"access\": \"unauthorized\"\x7d" ∧
      summaryAuthPrelude ⟨some "u1", fun _ => Except.error "db down"⟩ =
        .stop 500 "\x7b\"access\": \"internal server error\"\x7d" ∧
      uploadAuthPrelude ⟨some "u2", fun _ => Except.ok ⟨"u2", true⟩⟩ =
        .stop 403 "\x7b\"access\": \"forbidden\"\x7d" ∧
      summaryAuthPrelude ⟨some "u3", fun _ => Except.ok ⟨"u3", false⟩⟩ =
        .proceed ⟨"u3", false⟩ :=
  ⟨((C4_amended _).1 rfl).1,
    ((C4_amended _).2.1 "u1" "db down" rfl rfl).2,
    ((C4_amended _).2.2.1 "u2" ⟨"u2", true⟩ rfl rfl rfl).1,
    ((C4_amended _).2.2.2 "u3" ⟨"u3", false⟩ rfl rfl rfl).2⟩

/-- The AssemblyAI transcript value; the Go SDK's `Transcript.Text` field is a
`*string`, modelled as an `Option`. -/
structure Transcript where
  text : Option (List Char)
deriving DecidableEq

/-- The state of the request's temporary file when the handler returns:
whether the file still exists on disk and whether its handle is open. -/
structure FS where
  tempOnDisk : Bool
  tempOpen : Bool
deriving DecidableEq

/-- The request-local environment of the upload handler after the temporary
file has been created: the outcome of `io.Copy` and the outcome of
`sendToAssemblyAI`. -/
structure UploadEnv where
  copyRes : Except (List Char) Nat
  transcribeRes : Except (List Char) Transcript

/-- `http.Error(w, msg, code)` writes `msg` followed by a newline. -/
def httpErrBody (e : List Char) : List Char := e ++ ['\n']

/-- The fixed text the success path writes before the transcript text:
`{"status": "success", "transcript": "`. -/
def bodyPre : List Char := "\x7b\"status\": \"success\", \"transcript\": \"".data

/-- The fixed text the success path writes after the transcript text: the
closing `"}` plus the newline appended by `fmt.Fprintln`. -/
def bodySuf : List Char := "\"\x7d\n".data

/-- The hand-concatenated success body of the transcribe handler:
`{"status": "success", "transcript": "` + text + `"}` + newline. -/
def transcribeSuccessBody (t : List Char) : List Char := bodyPre ++ t ++ bodySuf

/-- Transcribed from `uploadHandler` (authenticated variant), from the point
where `os.CreateTemp` has succeeded: the temp file exists on disk with an
open handle and `defer tempFile.Close()` is registered.  A copy failure or a
transcription failure responds 500 via `http.Error`; on success the handler
writes 200 and the hand-built JSON body, dereferencing `*transcript.Text`
unguarded (`none` models the resulting nil-pointer panic: no value is
produced).  The returned `FS` reflects the deferred actions at return: the
handle is closed, and — since the source contains no `os.Remove` — the file
is still on disk. -/
def runUploadCore (env : UploadEnv) : Option ((Nat × List Char) × FS) :=
  match env.copyRes with
  | .error e => some ((500, httpErrBody e), ⟨true, false⟩)
  | .ok _ =>
    match env.transcribeRes with
    | .error e => some ((500, httpErrBody e), ⟨true, false⟩)
    | .ok t =>
      match t.text with
      | none => none
      | some txt => some ((200, transcribeSuccessBody txt), ⟨true, false⟩)

/-- The middle part of a response body framed by `bodyPre` and `bodySuf`. -/
def middleOf (body : List Char) : List Char :=
  (body.drop bodyPre.length).take ((body.drop bodyPre.length).length - bodySuf.length)

/-- The transcript field of a transcribe response body: the body must consist
exactly of the fixed frame around a valid JSON string literal content, which
is then decoded; otherwise the body is not a well-formed response and there
is no transcript field. -/
def transcriptField (body : List Char) : Option (List Char) :=
  if body = bodyPre ++ middleOf body ++ bodySuf ∧
      validJSONStringContent (middleOf body) = true then
    jsonUnescape (middleOf body)
  else none

/-- Claim C3 (the code is wrong): evaluating the upload handler on each exit
path after the temporary file was created — copy failure, transcription
failure, success — shows the handle closed (`tempOpen = false`) but the file
still on disk (`tempOnDisk = true`): the source never calls `os.Remove`, so
the temporary file is not removed before the handler returns. -/
theorem C3_ev :
    runUploadCore ⟨Except.error "disk full".data, Except.ok ⟨some "hi".data⟩⟩ =
        some ((500, httpErrBody "disk full".data), ⟨true, false⟩) ∧
      runUploadCore ⟨Except.ok 3, Except.error "assembly error".data⟩ =
        some ((500, httpErrBody "assembly error".data), ⟨true, false⟩) ∧
      runUploadCore ⟨Except.ok 3, Except.ok ⟨some "hi".data⟩⟩ =
        some ((200, transcribeSuccessBody "hi".data), ⟨true, false⟩) :=
  ⟨rfl, rfl, rfl⟩

/-- Claim C10: on the transcribe success path the handler dereferences the
transcript's Text pointer without a nil check — for every provider result
whose Text field is absent, the total embedding of the success path cannot
produce a value. -/
theorem C10_thm (n : Nat) :
    runUploadCore ⟨Except.ok n, Except.ok ⟨none⟩⟩ = none := rfl

/-- A character that JSON string content represents literally: not a double
quote, not a backslash, not a control character below U+0020. -/
def plainChar (c : Char) : Prop := c ≠ '\"' ∧ c ≠ '\\' ∧ 32 ≤ c.toNat

instance instDecPlainChar (c : Char) : Decidable (plainChar c) := by
  unfold plainChar; infer_instance

theorem plain_valid :
    ∀ t : List Char, (∀ c ∈ t, plainChar c) →
      validJSONStringContent t = true := by
  intro t
  induction t with
  | nil => intro _; rfl
  | cons c t ih =>
    intro h
    obtain ⟨h1, h2, h3⟩ := h c (by simp)
    rw [valid_plain h2 h1 h3]
    exact ih (fun x hx => h x (by simp [hx]))

theorem unescape_plain :
    ∀ t : List Char, (∀ c ∈ t, plainChar c) → jsonUnescape t = some t := by
  intro t
  induction t with
  | nil => intro _; rfl
  | cons c t ih =>
    intro h
    obtain ⟨h1, h2, h3⟩ := h c (by simp)
    rw [jsonUnescape.eq_def]
    dsimp only
    rw [if_neg h2, ih (fun x hx => h x (by simp [hx]))]
    rfl

theorem middleOf_frame (t : List Char) :
    middleOf (transcribeSuccessBody t) = t := by
  unfold middleOf transcribeSuccessBody
  rw [List.append_assoc, List.drop_left, List.length_append,
    Nat.add_sub_cancel, List.take_left]

/-- Claim C5 counterexample: for the provider transcript text `a"b` the
handler still returns 200, but the hand-built body embeds the raw double
quote, is not a well-formed response, and has no transcript field — the
response's transcript field does not equal the provider's text, refuting the
claim for every possible transcript text. -/
theorem C5_counterexample :
    runUploadCore ⟨Except.ok 3, Except.ok ⟨some "a\"b".data⟩⟩ =
        some ((200, transcribeSuccessBody "a\"b".data), ⟨true, false⟩) ∧
      transcriptField (transcribeSuccessBody "a\"b".data) = none :=
  ⟨rfl, by decide⟩

/-- Claim C5 (amended): for every valid multipart upload with a non-empty
file for which the transcription provider call succeeds and whose transcript
text contains no double quote, no backslash and no control character below
U+0020, the transcribe handler returns HTTP 200 with a response whose
transcript field equals the provider's returned transcript text.  (For texts
containing a double quote the 200 body is malformed and has no transcript
field, see the counterexample.) -/
theorem C5_amended (n : Nat) (t : List Char) (h : ∀ c ∈ t, plainChar c) :
    runUploadCore ⟨Except.ok n, Except.ok ⟨some t⟩⟩ =
        some ((200, transcribeSuccessBody t), ⟨true, false⟩) ∧
      transcriptField (transcribeSuccessBody t) = some t := by
  refine ⟨rfl, ?_⟩
  unfold transcriptField
  rw [middleOf_frame]
  rw [if_pos ⟨rfl, plain_valid t h⟩]
  exact unescape_plain t h

/-- Witness for C5_amended at the concrete transcript text "hello". -/
theorem C5_witness :
    (∀ c ∈ "hello".data, plainChar c) ∧
      (runUploadCore ⟨Except.ok 10, Except.ok ⟨some "hello".data⟩⟩ =
          some ((200, transcribeSuccessBody "hello".data), ⟨true, false⟩) ∧
        transcriptField (transcribeSuccessBody "hello".data) = some "hello".data) :=
  ⟨by decide, C5_amended 10 "hello".data (by decide)⟩

/-- The AssemblyAI `TranscriptOptionalParams` fields the code sets; the Go
fields are `*bool`, modelled as `Option Bool` (`none` = unset). -/
structure TranscriptOptionalParams where
  punctuate : Option Bool
  formatText : Option Bool
deriving DecidableEq

/-- Transcribed from `sendToAssemblyAI` in the authenticated two-route
variant: open the file (propagating a failure), then call the provider's
`TranscribeFromReader` with `Punctuate: aai.Bool(true), FormatText:
aai.Bool(true)`.  The provider is a function parameter, so which parameter
value it is invoked with is observable. -/
def sendToAssemblyAI (openRes : Except (List Char) Unit)
    (provider : TranscriptOptionalParams → Except (List Char) Transcript) :
    Except (List Char) Transcript :=
  match openRes with
  | .error e => .error e
  | .ok _ => provider ⟨some true, some true⟩

/-- Transcribed from `sendToAssemblyAI` in the earlier single-route variants
(main.go and the clerk-less upload server), where the code passes
`&aai.TranscriptOptionalParams{}`: both options unset. -/
def sendToAssemblyAI_v1 (openRes : Except (List Char) Unit)
    (provider : TranscriptOptionalParams → Except (List Char) Transcript) :
    Except (List Char) Transcript :=
  match openRes with
  | .error e => .error e
  | .ok _ => provider ⟨none, none⟩

/-- A provider that observes whether it was called with both options
enabled. -/
def probeProvider : TranscriptOptionalParams → Except (List Char) Transcript :=
  fun p =>
    if p.punctuate = some true ∧ p.formatText = some true then
      Except.ok ⟨some "ok".data⟩
    else Except.error "options not enabled".data

/-- Claim C6 counterexample: in the single-route variants the transcription
request reaches the provider with both options unset, not with punctuation
and text formatting enabled — the probe provider observes the difference
between the two variants. -/
theorem C6_counterexample :
    sendToAssemblyAI_v1 (Except.ok ()) probeProvider =
        Except.error "options not enabled".data ∧
      sendToAssemblyAI (Except.ok ()) probeProvider = Except.ok ⟨some "ok".data⟩ :=
  ⟨rfl, rfl⟩

/-- Claim C6 (amended): in the authenticated two-route variant every
transcription request submitted to the provider carries punctuation enabled
and text formatting enabled — the provider is only ever invoked at that
parameter value; in the earlier single-route variants the request is
submitted with both options unset. -/
theorem C6_amended :
    (∀ o provider, sendToAssemblyAI o provider =
        sendToAssemblyAI o (fun _ => provider ⟨some true, some true⟩)) ∧
      (∀ o provider, sendToAssemblyAI_v1 o provider =
        sendToAssemblyAI_v1 o (fun _ => provider ⟨none, none⟩)) := by
  constructor <;> intro o provider <;> cases o <;> rfl

/-- The instructional text prepended to the transcript before the completion
call; named `promptPrefix` in the Go source. -/
def promptPreamble : String :=
  "Task: Summarize the following transcript of a STEM lecture. Extract the main points, key concepts, and essential details.\n\nIf any critical information is missing or unclear, use your knowledge to fill in gaps while staying true to the topic.\nOutput format: The summary must be written in Markdown. You may use:\n  Headings (#, ##, ###) to structure content.\n  Bullet points (-, *) for key points.\n  Tables when presenting structured data.\n  LaTeX ($inline$ or $$block$$) for mathematical notation.\nStrict formatting rule: Output only the Markdown-formatted summary—no extra text, explanations, or disclaimers. Any deviation from this instruction will result in a 0 grade.\nTranscript:"

/-- The hand-concatenated success body of the summarize handler, written by
`fmt.Fprintf` with no trailing newline. -/
def summarySuccessBody (s : String) : String :=
  "\x7b\"status\": \"success\", \"summary\": \"" ++ s ++ "\"\x7d"

/-- String-level wrapper of the sanitizer. -/
def sanitizeStr (s : String) : String := String.mk (sanitizeInput s.data)

/-- The request-local environment of the summarize handler after the auth
prelude: the outcome of decoding the JSON body into the `text` field (Go's
decoder yields the zero value "" when the field is missing), and the
completion client `getAIResponse`. -/
structure SummaryEnv where
  decodeRes : Except String String
  ai : String → Except String String

/-- Transcribed from `handleSummaryRequest` after the auth prelude: a decode
failure responds 400 "Invalid JSON body"; an empty transcript responds 400
"No transcript provided"; otherwise `getAIResponse(promptPrefix +
transcript)` is called, its failure responds 500, and its result is
sanitized and embedded in the 200 success body.  The Bool records whether
the completion client was invoked. -/
def handleSummaryCore (env : SummaryEnv) : (Nat × String) × Bool :=
  match env.decodeRes with
  | .error _ => ((400, "Invalid JSON body\n"), false)
  | .ok transcript =>
    if transcript = "" then ((400, "No transcript provided\n"), false)
    else
      match env.ai (promptPreamble ++ transcript) with
      | .error e => ((500, e ++ "\n"), true)
      | .ok summary => ((200, summarySuccessBody (sanitizeStr summary)), true)

/-- Claim C7: for every summarize request whose decoded text field is empty
(which is also what a missing field decodes to), the handler returns status
400 and the completion client is never invoked. -/
theorem C7_thm (env : SummaryEnv) (h : env.decodeRes = Except.ok "") :
    handleSummaryCore env = ((400, "No transcript provided\n"), false) := by
  simp [handleSummaryCore, h]

/-- Witness for C7_thm at a concrete request whose text decodes to "". -/
theorem C7_witness :
    handleSummaryCore ⟨Except.ok "", fun _ => Except.ok "S"⟩ =
      ((400, "No transcript provided\n"), false) :=
  C7_thm ⟨Except.ok "", fun _ => Except.ok "S"⟩ rfl

/-- An HTTP response from the completion provider: the status code and the
byte content of the body stream (what `io.ReadAll(resp.Body)` would
return). -/
structure HTTPResp where
  statusCode : Nat
  bodyContents : String

/-- Models Go's `fmt` rendering with the `%s` verb of `resp.Body` — an
`io.ReadCloser` interface value, not the body bytes.  The concrete `*http.body`
struct has no String method, so `fmt` falls back to printing its internal
struct fields (readers, flags), which never include the unread stream
contents; the text below is a representative of that rendering.  The one
property relied on is faithful to Go: the rendering does not depend on and
does not contain the body contents. -/
def goFormatBody (_r : HTTPResp) : String := "&\x7b...\x7d"

/-- One completion choice; the code reads `Choices[0].Message.Content`. -/
structure Choice where
  content : String
deriving DecidableEq

/-- Transcribed from `getAIResponse`, from the point where `client.Do` has
returned a response: a non-200 status fails with
`fmt.Errorf("unexpected status code: %d, %s", resp.StatusCode, resp.Body)`
(note: `resp.Body` is the reader value, not the body bytes); on 200 the body
is read and unmarshalled (`parseChoices` models `json.Unmarshal` into the
`choices` array, with its possible error); zero choices fail with
"no response from AI"; otherwise the first choice's message content is
returned. -/
def getAIResponse (resp : HTTPResp)
    (parseChoices : String → Except String (List Choice)) : Except String String :=
  if resp.statusCode ≠ 200 then
    Except.error ("unexpected status code: " ++ toString resp.statusCode ++ ", " ++
      goFormatBody resp)
  else
    match parseChoices resp.bodyContents with
    | .error e => Except.error e
    | .ok choices =>
      match choices with
      | [] => Except.error "no response from AI"
      | c :: _ => Except.ok c.content

/-- Substring occurrence test on character lists. -/
def occursIn (pat : List Char) : List Char → Bool
  | [] => pat.isEmpty
  | c :: rest => pat.isPrefixOf (c :: rest) || occursIn pat rest

/-- Models `json.Unmarshal` of a body whose `choices` array is empty. -/
def parseZeroChoices : String → Except String (List Choice) := fun _ => Except.ok []

/-- Models `json.Unmarshal` of a body with one choice. -/
def parseOneChoice : String → Except String (List Choice) :=
  fun _ => Except.ok [⟨"The summary"⟩]

/-- Claim C8 (the code is wrong on the non-200 branch): for a provider
response with status 429 and body "Rate limit reached", the returned error
embeds the status code but renders `resp.Body` (the reader struct) instead
of the body bytes, so the error text does not contain the response body; the
200-with-zero-choices and 200-with-a-choice branches behave as claimed. -/
theorem C8_ev :
    getAIResponse ⟨429, "Rate limit reached"⟩ parseZeroChoices =
        Except.error ("unexpected status code: " ++ toString (429 : Nat) ++ ", " ++
          goFormatBody ⟨429, "Rate limit reached"⟩) ∧
      occursIn "Rate limit reached".data
          ("unexpected status code: " ++ toString (429 : Nat) ++ ", " ++
            goFormatBody ⟨429, "Rate limit reached"⟩).data = false ∧
      getAIResponse ⟨200, "\x7b\"choices\":[]\x7d"⟩ parseZeroChoices =
        Except.error "no response from AI" ∧
      getAIResponse ⟨200, "body"⟩ parseOneChoice = Except.ok "The summary" :=
  ⟨rfl, by decide, rfl, rfl⟩

end AutoNote
